import Mathlib

/-!
# Verification of the dify2wxbot message conversion and delivery pipeline

Shallow embedding of the core of the `dify2wxbot` repository:

* the in-memory conversation store (`store` package),
* the retrying HTTP primitive `doDifyRequest` and the three backend calls
  (`internal/service/dify_service.go`),
* the response classifier / outbound formatter `postprocessDifyResponse`
  and the orchestrator `ConvertAndSend` (`internal/service`, converter file).

External collaborators (the Go `net/http` client, `encoding/json`
marshal/unmarshal, `os` temp-file and file operations, and the WeCom robot
`Send*Message` methods) are modelled as oracle parameters: each such call
site takes the collaborator's answer as an input, and the trace of
collaborator invocations is returned as an explicit event list, mirroring
the order in which the Go code performs them (including `defer`red
cleanups, which run last).
-/

namespace Dify2WxBot

/-- A Go `error` value: we only track the message text. -/
structure GoErr where
  msg : String
deriving DecidableEq, Repr

/-- Result of a Go function returning `error`, with an explicit case for a
runtime panic (e.g. a slice-bounds violation), which in Go is not an
`error` return at all. -/
inductive GoResult (A : Type) where
  | ok (a : A)
  | err (e : GoErr)
  | panicked (msg : String)
deriving DecidableEq, Repr

/-- Go `len(s)` on a string counts UTF-8 bytes. -/
def utf8Len (s : String) : Nat := (s.toList.map Char.utf8Size).sum

/-! ## Conversation store (`store` package, lines 389–479 of the combined
service file)

`InMemoryConversationStore.store` is a `map[string]string`; we model the
map as a function from user id to an optional conversation id.  The
`sync.RWMutex` only guards the map against data races and has no effect on
the sequential semantics modelled here. -/

/-- The `map[string]string` held by `InMemoryConversationStore`. -/
def ConvStore := String → Option String

/-- `NewInMemoryConversationStore`: the freshly made empty map. -/
def NewInMemoryConversationStore : ConvStore := fun _ => none

/-- `GetConversationID`: `conversationID, ok := s.store[userID]`; a missing
key yields the zero value `""` together with `ok = false`. -/
def GetConversationID (s : ConvStore) (userID : String) : String × Bool :=
  match s userID with
  | some conversationID => (conversationID, true)
  | none => ("", false)

/-- `SaveConversationID`: `s.store[userID] = conversationID`. -/
def SaveConversationID (s : ConvStore) (userID conversationID : String) : ConvStore :=
  fun k => if k = userID then some conversationID else s k

/-- `NewConversationID`: `conversationID := uuid.New().String();
s.store[userID] = conversationID; return conversationID`.  The UUID
generator is an external collaborator, so the fresh id is an oracle
argument. -/
def NewConversationID (s : ConvStore) (userID freshUUID : String) : ConvStore × String :=
  (fun k => if k = userID then some freshUUID else s k, freshUUID)

/-- `DeleteConversationID`: `delete(s.store, userID)`. -/
def DeleteConversationID (s : ConvStore) (userID : String) : ConvStore :=
  fun k => if k = userID then none else s k

/-! ## The retrying HTTP call primitive `doDifyRequest`
(`internal/service/dify_service.go`, lines 112–170)

The Go `net/http` round trip `s.httpClient.Do(req)` is an oracle
`attempt : Nat → Except GoErr HttpResponse` giving the outcome of the
`i`-th call; `io.ReadAll(resp.Body)` is the oracle `readErr` (on success
the body text is the one carried by the response); `json.Unmarshal` into
`DifyAPIErrorResponse` resp. into the caller-supplied `responseStruct` are
the oracles `decodeErr` and `decodeA`. -/

/-- An HTTP response as far as `doDifyRequest` inspects it: the status
code, and the body text that `io.ReadAll` would produce. -/
structure HttpResponse where
  statusCode : Nat
  body : String
deriving DecidableEq, Repr

/-- `DifyAPIErrorResponse` (`dify_service.go` lines 38–42). -/
structure DifyAPIErrorResponse where
  code : String
  message : String
  status : Int
deriving DecidableEq, Repr

/-- `maxRetries = 3` (`dify_service.go` line 100). -/
def maxRetries : Nat := 3

/-- Result of the retry loop of `doDifyRequest` (lines 124–138): the final
`resp, err` pair, the list of back-off sleeps performed (in seconds, in
order), and how many round-trip attempts were made. -/
structure RetryOutcome where
  result : Except GoErr HttpResponse
  sleeps : List Nat
  attemptsMade : Nat
deriving Repr

/-- The retry loop `for i := 0; i < maxRetries; i++ { resp, err =
s.httpClient.Do(req); if err == nil { break }; if i < maxRetries-1 {
time.Sleep(time.Duration(i+1) * time.Second) } }`, unrolled on the number
of remaining iterations.  `i` is the Go loop counter; `remaining` is
`maxRetries - i`. -/
def retryLoop (attempt : Nat → Except GoErr HttpResponse) : Nat → Nat → RetryOutcome
  | _, 0 => ⟨.error ⟨"loop body never ran"⟩, [], 0⟩
  | i, remaining + 1 =>
    match attempt i with
    | .ok resp => ⟨.ok resp, [], 1⟩
    | .error e =>
      if remaining = 0 then ⟨.error e, [], 1⟩
      else
        let rest := retryLoop attempt (i + 1) remaining
        ⟨rest.result, (i + 1) :: rest.sleeps, rest.attemptsMade + 1⟩

/-- The terminal outcome of `doDifyRequest`, one constructor per `return`
site of the Go function (lines 117–169). -/
inductive DoOutcome (A : Type) where
  /-- `return nil`; `decoded` is the value stored into `responseStruct`
  when one was supplied. -/
  | success (decoded : Option A)
  /-- `http.NewRequest` failed. -/
  | errCreateRequest (e : GoErr)
  /-- all `maxRetries` round trips failed; carries the last transport
  error, wrapped (line 137). -/
  | errTransport (e : GoErr)
  /-- `io.ReadAll(resp.Body)` failed (line 143). -/
  | errReadBody (e : GoErr)
  /-- non-200 status and the body decoded as `DifyAPIErrorResponse`
  (line 155). -/
  | errStatusStructured (code message : String)
  /-- non-200 status and the body did not decode (line 158). -/
  | errStatusRaw (status : Nat) (body : String)
  /-- 200 status but decoding into `responseStruct` failed (line 164). -/
  | errDecodeSuccess
deriving DecidableEq, Repr

/-- `doDifyRequest` (lines 112–170).  Returns the outcome together with
the back-off sleeps performed and the number of round-trip attempts.
`withDest` is `responseStruct != nil`. -/
def doDifyRequest {A : Type} (newRequestErr : Option GoErr)
    (attempt : Nat → Except GoErr HttpResponse) (readErr : Option GoErr)
    (decodeErr : String → Option DifyAPIErrorResponse)
    (withDest : Bool) (decodeA : String → Option A) :
    DoOutcome A × List Nat × Nat :=
  match newRequestErr with
  | some e => (.errCreateRequest e, [], 0)
  | none =>
    let r := retryLoop attempt 0 maxRetries
    match r.result with
    | .error e => (.errTransport e, r.sleeps, r.attemptsMade)
    | .ok resp =>
      match readErr with
      | some e => (.errReadBody e, r.sleeps, r.attemptsMade)
      | none =>
        let respBody := resp.body
        if resp.statusCode ≠ 200 then
          match decodeErr respBody with
          | some errorResponse =>
            (.errStatusStructured errorResponse.code errorResponse.message,
              r.sleeps, r.attemptsMade)
          | none => (.errStatusRaw resp.statusCode respBody, r.sleeps, r.attemptsMade)
        else
          if withDest then
            match decodeA respBody with
            | some a => (.success (some a), r.sleeps, r.attemptsMade)
            | none => (.errDecodeSuccess, r.sleeps, r.attemptsMade)
          else (.success none, r.sleeps, r.attemptsMade)

/-! ## JSON values and dynamic maps

Go's `map[string]interface{}` (the result of `json.Unmarshal` into an
untyped map, and the `inputs` field of the request structs) is modelled as
a partial function from key to JSON value. -/

/-- An `interface{}` value produced by `encoding/json`. -/
inductive JValue where
  | null
  | bool (b : Bool)
  | num (n : Int)
  | str (s : String)
  | arr (elems : List JValue)
  | obj (fields : List (String × JValue))

/-- A `map[string]interface{}`. -/
def JObjF := String → Option JValue

/-- The empty map (`make(map[string]interface{})` or `{}`). -/
def emptyJObj : JObjF := fun _ => none

/-- Map update `m[k] = v`. -/
def objInsert (m : JObjF) (k : String) (v : JValue) : JObjF :=
  fun x => if x = k then some v else m x

/-- A one-entry map `{k: v}`. -/
def singletonJObj (k : String) (v : JValue) : JObjF :=
  objInsert emptyJObj k v

/-- The guard `v, ok := m[key].(string); ok && v != ""` used by the
classifier: the key must be present, hold a string, and that string must
be non-empty. -/
def nonEmptyStrField (m : JObjF) (key : String) : Option String :=
  match m key with
  | some (.str s) => if s = "" then none else some s
  | _ => none

/-! ## Outbound channel and collaborator oracles -/

/-- The closed set of outbound WeCom messages the converter emits
(`robot.SendTextMessage` / `SendMarkdownMessage` / `SendImageMessage` /
`SendFileMessage`). -/
inductive SendMsg where
  | text (content : String)
  | markdown (content : String)
  | image (path : String)
  | file (path : String)
deriving DecidableEq, Repr

/-- One collaborator invocation, recorded in program order (`defer`red
cleanups are recorded where they actually run, i.e. last). -/
inductive Event where
  /-- a `doDifyRequest` round issued by one of the backend-client
  operations, identified by its endpoint path. -/
  | httpRequest (method path : String)
  /-- `DifyService.UploadFile(filePath, user)` invoked by the
  orchestrator. -/
  | uploadFile (filePath user : String)
  /-- `CallDifyChatAPI` invoked with the given request. -/
  | chatCall (query conversationID user : String)
  /-- `CallDifyCompletionAPI` invoked with the given request. -/
  | completionCall (prompt user : String)
  /-- `CallDifyWorkflowAPI` invoked; `query` is `inputs["query"]` when it
  is a string. -/
  | workflowCall (query workflowID user : String)
  /-- `os.CreateTemp("", pattern)` with success flag. -/
  | createTemp (pattern : String) (ok : Bool)
  /-- `DifyService.DownloadFile(url, path)` with success flag. -/
  | download (url path : String) (ok : Bool)
  /-- `os.Remove(path)`. -/
  | removeFile (path : String)
  /-- a `robot.Send*Message` call with success flag. -/
  | send (m : SendMsg) (ok : Bool)
deriving DecidableEq, Repr

/-- Converts a Go `error` return into a `GoResult` (no panic involved). -/
def liftExcept : Except GoErr Unit → GoResult Unit
  | .ok _ => .ok ()
  | .error e => .err e

/-- A `robot.Send*Message` call: the WeCom robot is an external
collaborator, so its answer (`nil` or an error) is the oracle
`sendResult`.  Returns the Go result together with the recorded event. -/
def robotSend (sendResult : SendMsg → Option GoErr) (m : SendMsg) :
    Except GoErr Unit × Event :=
  match sendResult m with
  | none => (.ok (), .send m true)
  | some e => (.error e, .send m false)

/-- File-system and download collaborators used by the formatter:
`os.CreateTemp("", pattern)` yields a temp path or fails, and
`DifyService.DownloadFile(url, path)` yields `nil` or an error. -/
structure FsOracles where
  createTemp : String → Option String
  download : String → String → Option GoErr

/-! ## `filepath.Ext` and `getFileTypeFromPath` -/

/-- Walks the reversed character list of a path: the extension is the
suffix beginning at the final dot in the final slash-separated element,
empty if there is no such dot. -/
def extOfRev : List Char → Option (List Char)
  | [] => none
  | c :: rest =>
    if c = '/' then none
    else if c = '.' then some [c]
    else (extOfRev rest).map (fun e => e ++ [c])

/-- Go `filepath.Ext` (on a slash-separated path). -/
def filepathExt (path : String) : String :=
  match extOfRev path.toList.reverse with
  | some e => String.mk e
  | none => ""

/-- `getFileTypeFromPath` (converter file, lines 292–306). -/
def getFileTypeFromPath (filePath : String) : String :=
  let ext := (filepathExt filePath).toLower
  if ext ∈ [".jpg", ".jpeg", ".png", ".gif", ".bmp", ".webp"] then "image"
  else if ext ∈ [".mp3", ".wav", ".aac", ".flac"] then "audio"
  else if ext ∈ [".mp4", ".avi", ".mov", ".wmv", ".flv"] then "video"
  else if ext ∈ [".txt", ".md", ".csv", ".json", ".xml"] then "text"
  else "other"

/-! ## Response classifier & outbound formatter `postprocessDifyResponse`
(converter file, lines 51–145)

`json.Unmarshal` of the response into `map[string]interface{}` is the
oracle `parseJson` (`none` models a parse error). -/

/-- `maxWeComMessageLength = 2048` (line 136). -/
def maxWeComMessageLength : Nat := 2048

/-- The fixed suffix appended after truncation (line 141). -/
def truncNote : String := "\n... (消息已截断，请查看 Dify 后台获取完整内容)"

/-- The plain-text tail of `postprocessDifyResponse` (lines 133–144):
`len` is the UTF-8 byte length, but the slice `[]rune(difyResponse)[:2048-50]`
is taken over runes — when the payload has more than 2048 bytes but fewer
than 1998 runes, that slice expression panics (slice bounds out of
range). -/
def ppPlain (sendResult : SendMsg → Option GoErr) (difyResponse : String) :
    GoResult Unit × List Event :=
  if utf8Len difyResponse > maxWeComMessageLength then
    if difyResponse.toList.length < maxWeComMessageLength - 50 then
      (.panicked "runtime error: slice bounds out of range", [])
    else
      let truncated :=
        String.mk (difyResponse.toList.take (maxWeComMessageLength - 50)) ++ truncNote
      let se := robotSend sendResult (.text truncated)
      (liftExcept se.1, [se.2])
  else
    let se := robotSend sendResult (.text difyResponse)
    (liftExcept se.1, [se.2])

/-- The scratch-file pattern of the image branch: extension derived from
the URL, defaulting to `.png` (lines 61–66). -/
def imageTempPattern (imageUrl : String) : String :=
  let imageExt := if filepathExt imageUrl = "" then ".png" else filepathExt imageUrl
  "dify_image_*" ++ imageExt

/-- The scratch-file pattern of the file branch: extension derived from
the URL, defaulting to `.bin` (lines 92–95). -/
def fileTempPattern (fileUrl : String) : String :=
  let fileExt := if filepathExt fileUrl = "" then ".bin" else filepathExt fileUrl
  "dify_file_*" ++ fileExt

/-- Text sent when the image scratch-file creation or download fails
(lines 69 and 77). -/
def imageFailDownloadMsg (imageUrl : String) : String :=
  "Dify 返回了一张图片: " ++ imageUrl ++ "，但下载失败。"

/-- Text sent when delivering the image to WeCom fails (line 84). -/
def imageFailSendMsg (imageUrl : String) : String :=
  "Dify 返回了一张图片: " ++ imageUrl ++ "，但发送失败。"

/-- Text sent when the file scratch-file creation or download fails
(lines 100 and 108). -/
def fileFailDownloadMsg (fileUrl : String) : String :=
  "Dify 返回了一个文件: " ++ fileUrl ++ "，但下载失败。"

/-- Text sent when delivering the file to WeCom fails (line 115). -/
def fileFailSendMsg (fileUrl : String) : String :=
  "Dify 返回了一个文件: " ++ fileUrl ++ "，但发送失败。"

/-- The `image_url` branch (lines 58–87).  On any sub-step failure the
branch falls back to a text notice; the `defer os.Remove` registered
after a successful download runs after the send. -/
def ppImageBranch (fs : FsOracles) (sendResult : SendMsg → Option GoErr)
    (imageUrl : String) : GoResult Unit × List Event :=
  let pattern := imageTempPattern imageUrl
  match fs.createTemp pattern with
  | none =>
    let se := robotSend sendResult (.text (imageFailDownloadMsg imageUrl))
    (liftExcept se.1,
      [.createTemp pattern false, se.2])
  | some tempFilePath =>
    match fs.download imageUrl tempFilePath with
    | some _ =>
      let se := robotSend sendResult (.text (imageFailDownloadMsg imageUrl))
      (liftExcept se.1,
        [.createTemp pattern true, .download imageUrl tempFilePath false,
          .removeFile tempFilePath, se.2])
    | none =>
      let si := robotSend sendResult (.image tempFilePath)
      match si.1 with
      | .ok _ =>
        (.ok (), [.createTemp pattern true, .download imageUrl tempFilePath true,
          si.2, .removeFile tempFilePath])
      | .error _ =>
        let se := robotSend sendResult (.text (imageFailSendMsg imageUrl))
        (liftExcept se.1,
          [.createTemp pattern true, .download imageUrl tempFilePath true,
            si.2, se.2, .removeFile tempFilePath])

/-- The `file_url` branch (lines 89–118), same pattern with `.bin`
default extension and a File outbound message. -/
def ppFileBranch (fs : FsOracles) (sendResult : SendMsg → Option GoErr)
    (fileUrl : String) : GoResult Unit × List Event :=
  let pattern := fileTempPattern fileUrl
  match fs.createTemp pattern with
  | none =>
    let se := robotSend sendResult (.text (fileFailDownloadMsg fileUrl))
    (liftExcept se.1,
      [.createTemp pattern false, se.2])
  | some tempFilePath =>
    match fs.download fileUrl tempFilePath with
    | some _ =>
      let se := robotSend sendResult (.text (fileFailDownloadMsg fileUrl))
      (liftExcept se.1,
        [.createTemp pattern true, .download fileUrl tempFilePath false,
          .removeFile tempFilePath, se.2])
    | none =>
      let sf := robotSend sendResult (.file tempFilePath)
      match sf.1 with
      | .ok _ =>
        (.ok (), [.createTemp pattern true, .download fileUrl tempFilePath true,
          sf.2, .removeFile tempFilePath])
      | .error _ =>
        let se := robotSend sendResult (.text (fileFailSendMsg fileUrl))
        (liftExcept se.1,
          [.createTemp pattern true, .download fileUrl tempFilePath true,
            sf.2, se.2, .removeFile tempFilePath])

/-- The Dify configuration fields the core reads
(`internal/config/config.go`, `DifyConfig`). -/
structure DifyConfig where
  apiKey : String
  baseURL : String
  botType : String
  workflowID : String
  defaultPrompt : String
deriving DecidableEq, Repr

/-- `postprocessDifyResponse` (lines 51–145): first-match-wins dispatch
over the payload parsed as a JSON object, falling through to the
plain-text tail. -/
def postprocessDifyResponse (cfg : DifyConfig)
    (parseJson : String → Option JObjF) (fs : FsOracles)
    (sendResult : SendMsg → Option GoErr) (difyResponse : String) :
    GoResult Unit × List Event :=
  match parseJson difyResponse with
  | some jsonResponse =>
    match nonEmptyStrField jsonResponse "image_url" with
    | some imageUrl => ppImageBranch fs sendResult imageUrl
    | none =>
      match nonEmptyStrField jsonResponse "file_url" with
      | some fileUrl => ppFileBranch fs sendResult fileUrl
      | none =>
        match nonEmptyStrField jsonResponse "markdown" with
        | some markdownContent =>
          let se := robotSend sendResult (.markdown markdownContent)
          (liftExcept se.1, [se.2])
        | none =>
          if (jsonResponse "data").isSome ∧ cfg.botType = "workflow" then
            let se := robotSend sendResult (.text difyResponse)
            (liftExcept se.1, [se.2])
          else ppPlain sendResult difyResponse
  | none => ppPlain sendResult difyResponse

/-! ## AI backend client (`dify_service.go`, lines 174–388)

Each `CallDify*API` operation checks the configuration, adjusts the
request, and issues one `doDifyRequest` round.  The marshalling of the
request struct and the whole `doDifyRequest` machinery (verified above in
isolation) collapse into one oracle `doReq` giving the decoded response or
the error; an `httpRequest` event records that the round was issued at
all.  `json.Marshal` of a plain request struct cannot fail and is treated
as total. -/

/-- `difyChatMessagesPath` (line 95). -/
def difyChatMessagesPath : String := "/v1/chat-messages"

/-- `difyCompletionMessagesPath` (line 96). -/
def difyCompletionMessagesPath : String := "/v1/completion-messages"

/-- `difyWorkflowRunPath` (line 97). -/
def difyWorkflowRunPath : String := "/v1/workflows/run"

/-- `responseModeBlocking` (line 98). -/
def responseModeBlocking : String := "blocking"

/-- `defaultRole` (line 99). -/
def defaultRole : String := "员工"

/-- `difyFileUploadPath` (line 101). -/
def difyFileUploadPath : String := "/files/upload"

/-- One entry of the `files` list built for a chat request (converter
file, lines 201–205). -/
structure FileInfo where
  ftype : String
  transferMethod : String
  uploadFileID : String
deriving DecidableEq, Repr

/-- `DifyBaseRequest` (lines 46–51).  `inputs` is `Option` so that a nil
map is distinguished from an empty one, as Go does. -/
structure DifyBaseRequest where
  inputs : Option JObjF
  user : String
  responseMode : String
  files : List FileInfo

/-- `DifyChatRequest` (lines 55–59). -/
structure DifyChatRequest extends DifyBaseRequest where
  query : String
  conversationID : String

/-- `DifyCompletionRequest` (lines 63–66). -/
structure DifyCompletionRequest extends DifyBaseRequest where
  prompt : String

/-- `DifyWorkflowRequest` (lines 70–74). -/
structure DifyWorkflowRequest extends DifyBaseRequest where
  workflowID : String

/-- `DifyChatResponse` (lines 77–80). -/
structure DifyChatResponse where
  answer : String
deriving DecidableEq, Repr

/-- `DifyCompletionResponse` (lines 83–86). -/
structure DifyCompletionResponse where
  text : String
deriving DecidableEq, Repr

/-- `DifyWorkflowResponse` (lines 89–92): `data` is the decoded
`map[string]interface{}`, `none` for a nil map. -/
structure DifyWorkflowResponse where
  data : Option JObjF

/-- `CallDifyChatAPI` (lines 174–216). -/
def CallDifyChatAPI (cfg : DifyConfig)
    (doReq : DifyChatRequest → Except GoErr DifyChatResponse)
    (request : DifyChatRequest) : Except GoErr DifyChatResponse × List Event :=
  if cfg.baseURL = "" ∨ cfg.apiKey = "" then
    (.error ⟨"dify base url 或 api key 未配置"⟩, [])
  else
    let inputs0 := request.inputs.getD emptyJObj
    let inputs := if (inputs0 "role").isSome then inputs0
      else objInsert inputs0 "role" (.str defaultRole)
    let request := { request with
      inputs := some inputs, responseMode := responseModeBlocking }
    match doReq request with
    | .error e => (.error e, [.httpRequest "POST" difyChatMessagesPath])
    | .ok response =>
      if response.answer = "" then
        (.error ⟨"dify chat api 响应未包含有效答案"⟩,
          [.httpRequest "POST" difyChatMessagesPath])
      else (.ok response, [.httpRequest "POST" difyChatMessagesPath])

/-- `CallDifyCompletionAPI` (lines 303–345). -/
def CallDifyCompletionAPI (cfg : DifyConfig)
    (doReq : DifyCompletionRequest → Except GoErr DifyCompletionResponse)
    (request : DifyCompletionRequest) :
    Except GoErr DifyCompletionResponse × List Event :=
  if cfg.baseURL = "" ∨ cfg.apiKey = "" then
    (.error ⟨"dify base url 或 api key 未配置"⟩, [])
  else
    let inputs0 := request.inputs.getD emptyJObj
    let inputs := if (inputs0 "role").isSome then inputs0
      else objInsert inputs0 "role" (.str defaultRole)
    let request := { request with
      inputs := some inputs, responseMode := responseModeBlocking }
    match doReq request with
    | .error e => (.error e, [.httpRequest "POST" difyCompletionMessagesPath])
    | .ok response =>
      if response.text = "" then
        (.error ⟨"dify completion api 响应未包含有效文本"⟩,
          [.httpRequest "POST" difyCompletionMessagesPath])
      else (.ok response, [.httpRequest "POST" difyCompletionMessagesPath])

/-- `CallDifyWorkflowAPI` (lines 349–388): ensures `inputs` is non-nil
(no default persona injection) and requires a non-nil `data` object. -/
def CallDifyWorkflowAPI (cfg : DifyConfig)
    (doReq : DifyWorkflowRequest → Except GoErr DifyWorkflowResponse)
    (request : DifyWorkflowRequest) :
    Except GoErr DifyWorkflowResponse × List Event :=
  if cfg.baseURL = "" ∨ cfg.apiKey = "" then
    (.error ⟨"dify base url 或 api key 未配置"⟩, [])
  else
    let request := { request with
      inputs := some (request.inputs.getD emptyJObj),
      responseMode := responseModeBlocking }
    match doReq request with
    | .error e => (.error e, [.httpRequest "POST" difyWorkflowRunPath])
    | .ok response =>
      match response.data with
      | none =>
        (.error ⟨"dify workflow api 响应未包含有效数据"⟩,
          [.httpRequest "POST" difyWorkflowRunPath])
      | some _ => (.ok response, [.httpRequest "POST" difyWorkflowRunPath])

/-- `UploadFile` (lines 252–299): config check, then `os.Open` (oracle
`openResult`), then the multipart `doDifyRequest` round (oracle `doReq`,
decoding into a `map[string]interface{}`).  Building the multipart body
in an in-memory buffer is treated as total. -/
def UploadFile (cfg : DifyConfig) (openResult : Except GoErr Unit)
    (doReq : Except GoErr JObjF) (filePath user : String) :
    Except GoErr JObjF × List Event :=
  if cfg.baseURL = "" ∨ cfg.apiKey = "" then
    (.error ⟨"dify base url 或 api key 未配置"⟩, [])
  else
    match openResult with
    | .error e => (.error ⟨"failed to open file: " ++ e.msg⟩, [])
    | .ok _ =>
      match doReq with
      | .error e => (.error e, [.httpRequest "POST" difyFileUploadPath])
      | .ok response => (.ok response, [.httpRequest "POST" difyFileUploadPath])

/-! ## Pipeline orchestrator `ConvertAndSend` (converter file,
lines 153–288) -/

/-- Go `strings.HasPrefix`, as a character-list prefix test (equivalent
to the byte-prefix test on valid UTF-8). -/
def goHasPrefix (s pre : String) : Bool :=
  pre.toList.isPrefixOf s.toList

/-- `preprocessMessage` (lines 35–47); its `error` return is always `nil`
in the source, so it is omitted. -/
def preprocessMessage (message : String) : String × Bool :=
  if goHasPrefix message "/image " then ("抱歉，图片生成功能暂未实现。", true)
  else (message, false)

/-- All collaborator oracles `ConvertAndSend` threads through:
`parseJson`/`fs`/`sendResult` feed the formatter, `uploadOpen` and
`uploadDoReq` feed `UploadFile`, the three `*DoReq` oracles feed the
backend calls, and `marshalData` is `json.MarshalIndent(resp.Data, "",
"  ")` of the workflow result. -/
structure ConvertOracles where
  parseJson : String → Option JObjF
  fs : FsOracles
  sendResult : SendMsg → Option GoErr
  uploadOpen : Except GoErr Unit
  uploadDoReq : Except GoErr JObjF
  chatDoReq : DifyChatRequest → Except GoErr DifyChatResponse
  completionDoReq : DifyCompletionRequest → Except GoErr DifyCompletionResponse
  workflowDoReq : DifyWorkflowRequest → Except GoErr DifyWorkflowResponse
  marshalData : Option JObjF → Except GoErr String

/-- The `switch c.difyService.cfg.Dify.BotType` of `ConvertAndSend`
(lines 183–273), returning `difyResponse` or `difyErr` together with the
trace of backend operations. -/
def dispatchDify (cfg : DifyConfig) (o : ConvertOracles)
    (message user conversationID filePath : String) :
    Except GoErr String × List Event :=
  if cfg.botType = "chat" then
    let up : Except GoErr (List FileInfo) × List Event :=
      if filePath ≠ "" then
        let ur := UploadFile cfg o.uploadOpen o.uploadDoReq filePath user
        match ur.1 with
        | .error e =>
          (.error ⟨"failed to upload file to Dify: " ++ e.msg⟩,
            .uploadFile filePath user :: ur.2)
        | .ok uploadResp =>
          match uploadResp "id" with
          | some (.str fileID) =>
            (.ok [⟨getFileTypeFromPath filePath, "local_file", fileID⟩],
              .uploadFile filePath user :: ur.2)
          | _ => (.ok [], .uploadFile filePath user :: ur.2)
      else (.ok [], [])
    match up.1 with
    | .error e => (.error e, up.2)
    | .ok files =>
      let req : DifyChatRequest :=
        { inputs := some emptyJObj, user := user,
          responseMode := responseModeBlocking, files := files,
          query := message, conversationID := conversationID }
      let cr := CallDifyChatAPI cfg o.chatDoReq req
      match cr.1 with
      | .error e =>
        (.error ⟨"dify chat api call failed: " ++ e.msg⟩,
          up.2 ++ .chatCall message conversationID user :: cr.2)
      | .ok resp =>
        (.ok resp.answer, up.2 ++ .chatCall message conversationID user :: cr.2)
  else if cfg.botType = "completion" then
    let req : DifyCompletionRequest :=
      { inputs := some emptyJObj, user := user,
        responseMode := responseModeBlocking, files := [], prompt := message }
    let cr := CallDifyCompletionAPI cfg o.completionDoReq req
    match cr.1 with
    | .error e =>
      (.error ⟨"dify completion api call failed: " ++ e.msg⟩,
        .completionCall message user :: cr.2)
    | .ok resp => (.ok resp.text, .completionCall message user :: cr.2)
  else if cfg.botType = "workflow" then
    let req : DifyWorkflowRequest :=
      { inputs := some (singletonJObj "query" (.str message)), user := user,
        responseMode := responseModeBlocking, files := [],
        workflowID := cfg.workflowID }
    let cr := CallDifyWorkflowAPI cfg o.workflowDoReq req
    match cr.1 with
    | .error e =>
      (.error ⟨"dify workflow api call failed: " ++ e.msg⟩,
        .workflowCall message cfg.workflowID user :: cr.2)
    | .ok resp =>
      match o.marshalData resp.data with
      | .error me =>
        (.ok ("Error: failed to marshal workflow response: " ++ me.msg),
          .workflowCall message cfg.workflowID user :: cr.2)
      | .ok jsonStr =>
        (.ok jsonStr, .workflowCall message cfg.workflowID user :: cr.2)
  else (.error ⟨"unsupported dify bot type: " ++ cfg.botType⟩, [])

/-- The tail of `ConvertAndSend` after default-prompt substitution
(lines 178–288): empty-request check, backend dispatch, and response
post-processing. -/
def convertViaDify (cfg : DifyConfig) (o : ConvertOracles)
    (message user conversationID filePath : String) :
    GoResult Unit × List Event :=
  if message = "" ∧ filePath = "" then
    (.err ⟨"message content or file path cannot be empty"⟩, [])
  else
    let d := dispatchDify cfg o message user conversationID filePath
    match d.1 with
    | .error e => (.err ⟨"failed to call Dify API: " ++ e.msg⟩, d.2)
    | .ok difyResponse =>
      let p := postprocessDifyResponse cfg o.parseJson o.fs o.sendResult difyResponse
      match p.1 with
      | .ok _ => (.ok (), d.2 ++ p.2)
      | .err e =>
        (.err ⟨"failed to post-process Dify response and send to wecom: " ++ e.msg⟩,
          d.2 ++ p.2)
      | .panicked m => (.panicked m, d.2 ++ p.2)

/-- `ConvertAndSend` (lines 153–288): preprocessing, default-prompt
substitution, then `convertViaDify`. -/
def ConvertAndSend (cfg : DifyConfig) (o : ConvertOracles)
    (message user conversationID filePath : String) :
    GoResult Unit × List Event :=
  let pm := preprocessMessage message
  if pm.2 then
    if pm.1 ≠ "" then
      let se := robotSend o.sendResult (.text pm.1)
      (liftExcept se.1, [se.2])
    else (.ok (), [])
  else
    let message1 := pm.1
    let message2 :=
      if message1 = "" ∧ cfg.defaultPrompt ≠ "" then cfg.defaultPrompt else message1
    convertViaDify cfg o message2 user conversationID filePath

end Dify2WxBot

namespace Dify2WxBot

/-- C9: after `SaveConversationID(u, id)`, `GetConversationID(u)` returns
exactly that id with `found = true`; saving `id2` after `id1` for the same
user makes the get return `id2` (last writer wins); and repeating the save
with the same id leaves the stored mapping unchanged, so subsequent gets
keep returning the same id. -/
theorem conversationStore_save_get_lastWriterWins_idempotent
    (s : ConvStore) (u id id1 id2 : String) :
    GetConversationID (SaveConversationID s u id) u = (id, true) ∧
    GetConversationID (SaveConversationID (SaveConversationID s u id1) u id2) u = (id2, true) ∧
    SaveConversationID (SaveConversationID s u id) u id = SaveConversationID s u id := by
  refine ⟨?_, ?_, ?_⟩
  · simp [GetConversationID, SaveConversationID]
  · simp [GetConversationID, SaveConversationID]
  · funext k
    simp only [SaveConversationID]
    by_cases h : k = u <;> simp [h]

/-- C10: every conversation-store operation touches only its own user's
entry — for distinct users `u ≠ v`, save, generate and delete for `u`
leave the mapping for `v` unchanged; and after `DeleteConversationID(u)`,
`GetConversationID(u)` reports `found = false`. -/
theorem conversationStore_frame_and_delete
    (s : ConvStore) (u v id freshUUID : String) (huv : v ≠ u) :
    SaveConversationID s u id v = s v ∧
    (NewConversationID s u freshUUID).1 v = s v ∧
    DeleteConversationID s u v = s v ∧
    GetConversationID (DeleteConversationID s u) u = ("", false) := by
  refine ⟨?_, ?_, ?_, ?_⟩
  · simp [SaveConversationID, huv]
  · simp [NewConversationID, huv]
  · simp [DeleteConversationID, huv]
  · simp [GetConversationID, DeleteConversationID]

/-- Witness for C10 at concrete users `"u1" ≠ "v1"` on the empty store. -/
theorem conversationStore_frame_and_delete_witness :
    ("v1" : String) ≠ "u1" ∧
    SaveConversationID NewInMemoryConversationStore "u1" "cid" "v1" =
      NewInMemoryConversationStore "v1" := by
  have h : ("v1" : String) ≠ "u1" := by decide
  exact ⟨h, (conversationStore_frame_and_delete
    NewInMemoryConversationStore "u1" "v1" "cid" "fresh" h).1⟩

/-- Helper: the retry loop never makes more attempts than its remaining
iteration budget. -/
theorem retryLoop_attemptsMade_le (attempt : Nat → Except GoErr HttpResponse) :
    ∀ r i, (retryLoop attempt i r).attemptsMade ≤ r := by
  intro r
  induction r with
  | zero => intro i; simp [retryLoop]
  | succ n ih =>
    intro i
    simp only [retryLoop]
    cases attempt i with
    | ok resp => simp
    | error e =>
      by_cases h : n = 0
      · simp [h]
      · have := ih (i + 1)
        simp only [h, if_false]
        simpa using Nat.succ_le_succ this

/-- Helper: the sleeps and attempt count reported by `doDifyRequest` are
exactly those of its retry loop (every return site after the loop passes
them through unchanged). -/
theorem doDifyRequest_snd {A : Type}
    (attempt : Nat → Except GoErr HttpResponse) (readErr : Option GoErr)
    (decodeErr : String → Option DifyAPIErrorResponse)
    (withDest : Bool) (decodeA : String → Option A) :
    (doDifyRequest none attempt readErr decodeErr withDest decodeA).2 =
      ((retryLoop attempt 0 maxRetries).sleeps,
        (retryLoop attempt 0 maxRetries).attemptsMade) := by
  simp only [doDifyRequest]
  rcases hres : (retryLoop attempt 0 maxRetries).result with e | resp
  · simp [hres]
  · cases readErr with
    | some e => simp [hres]
    | none =>
      simp only [hres]
      by_cases hst : resp.statusCode = 200
      · cases withDest with
        | true =>
          cases hdec : decodeA resp.body with
          | some a => simp [hst, hdec]
          | none => simp [hst, hdec]
        | false => simp [hst]
      · cases hdec : decodeErr resp.body with
        | some er => simp [hst, hdec]
        | none => simp [hst, hdec]

/-- C5: `doDifyRequest` makes at most 3 connection-level attempts; a
transport failure on attempt 1 sleeps 1 s and on attempt 2 sleeps 2 s
before the next attempt; any attempt yielding an HTTP response
(regardless of its status code) ends the retry loop, so HTTP error
statuses are never retried; after 3 consecutive transport failures the
call fails with the (wrapped) last transport error. -/
theorem doDifyRequest_retry_policy {A : Type}
    (attempt : Nat → Except GoErr HttpResponse) (readErr : Option GoErr)
    (decodeErr : String → Option DifyAPIErrorResponse)
    (withDest : Bool) (decodeA : String → Option A) :
    (∀ newRequestErr,
      (doDifyRequest newRequestErr attempt readErr decodeErr withDest decodeA).2.2 ≤ 3) ∧
    (∀ resp, attempt 0 = .ok resp →
      (doDifyRequest none attempt readErr decodeErr withDest decodeA).2 = ([], 1)) ∧
    (∀ e0 resp, attempt 0 = .error e0 → attempt 1 = .ok resp →
      (doDifyRequest none attempt readErr decodeErr withDest decodeA).2 = ([1], 2)) ∧
    (∀ e0 e1 resp, attempt 0 = .error e0 → attempt 1 = .error e1 → attempt 2 = .ok resp →
      (doDifyRequest none attempt readErr decodeErr withDest decodeA).2 = ([1, 2], 3) ∧
      ∀ e, (doDifyRequest none attempt readErr decodeErr withDest decodeA).1 ≠
        .errTransport e) ∧
    (∀ e0 e1 e2, attempt 0 = .error e0 → attempt 1 = .error e1 → attempt 2 = .error e2 →
      doDifyRequest none attempt readErr decodeErr withDest decodeA =
        (.errTransport e2, [1, 2], 3)) := by
  have hloop0 : ∀ resp, attempt 0 = .ok resp →
      retryLoop attempt 0 maxRetries = ⟨.ok resp, [], 1⟩ := by
    intro resp h; simp [retryLoop, maxRetries, h]
  have hloop1 : ∀ e0 resp, attempt 0 = .error e0 → attempt 1 = .ok resp →
      retryLoop attempt 0 maxRetries = ⟨.ok resp, [1], 2⟩ := by
    intro e0 resp h0 h1; simp [retryLoop, maxRetries, h0, h1]
  have hloop2 : ∀ e0 e1 resp, attempt 0 = .error e0 → attempt 1 = .error e1 →
      attempt 2 = .ok resp → retryLoop attempt 0 maxRetries = ⟨.ok resp, [1, 2], 3⟩ := by
    intro e0 e1 resp h0 h1 h2; simp [retryLoop, maxRetries, h0, h1, h2]
  have hloop3 : ∀ e0 e1 e2, attempt 0 = .error e0 → attempt 1 = .error e1 →
      attempt 2 = .error e2 → retryLoop attempt 0 maxRetries = ⟨.error e2, [1, 2], 3⟩ := by
    intro e0 e1 e2 h0 h1 h2; simp [retryLoop, maxRetries, h0, h1, h2]
  refine ⟨?_, ?_, ?_, ?_, ?_⟩
  · intro newRequestErr
    cases newRequestErr with
    | some e => simp [doDifyRequest]
    | none =>
      rw [show (doDifyRequest none attempt readErr decodeErr withDest decodeA).2.2 =
        ((doDifyRequest none attempt readErr decodeErr withDest decodeA).2).2 from rfl,
        doDifyRequest_snd]
      exact retryLoop_attemptsMade_le attempt maxRetries 0
  · intro resp h
    rw [doDifyRequest_snd, hloop0 resp h]
  · intro e0 resp h0 h1
    rw [doDifyRequest_snd, hloop1 e0 resp h0 h1]
  · intro e0 e1 resp h0 h1 h2
    refine ⟨by rw [doDifyRequest_snd, hloop2 e0 e1 resp h0 h1 h2], ?_⟩
    intro e
    simp only [doDifyRequest, hloop2 e0 e1 resp h0 h1 h2]
    cases readErr with
    | some er => simp
    | none =>
      by_cases hst : resp.statusCode = 200
      · cases withDest with
        | true =>
          cases hdec : decodeA resp.body with
          | some a => simp [hst, hdec]
          | none => simp [hst, hdec]
        | false => simp [hst]
      · cases hdec : decodeErr resp.body with
        | some er => simp [hst, hdec]
        | none => simp [hst, hdec]
  · intro e0 e1 e2 h0 h1 h2
    simp [doDifyRequest, hloop3 e0 e1 e2 h0 h1 h2]

/-- Witness for C5: with every round trip failing with the same transport
error, the call fails with that error after sleeps of 1 s and 2 s and 3
attempts. -/
theorem doDifyRequest_retry_policy_witness :
    ((fun _ => .error ⟨"dial tcp: refused"⟩ : Nat → Except GoErr HttpResponse) 0 =
      .error ⟨"dial tcp: refused"⟩) ∧
    doDifyRequest (A := Nat) none (fun _ => .error ⟨"dial tcp: refused"⟩) none
      (fun _ => none) true (fun _ => some 0) =
      (.errTransport ⟨"dial tcp: refused"⟩, [1, 2], 3) := by
  refine ⟨rfl, ?_⟩
  exact (doDifyRequest_retry_policy (A := Nat)
      (fun _ => .error ⟨"dial tcp: refused"⟩) none (fun _ => none) true
      (fun _ => some 0)).2.2.2.2 ⟨"dial tcp: refused"⟩ ⟨"dial tcp: refused"⟩
      ⟨"dial tcp: refused"⟩ rfl rfl rfl

/-- Counterexample for C2 as stated: a 201 response (a 2xx status) with a
destination struct supplied and a body the destination decoder accepts is
NOT decoded into the destination — the code treats every status other
than exactly 200 as an error.  Here the structured-error decode fails, so
the call surfaces the raw status and body. -/
theorem doDifyRequest_status201_counterexample :
    (doDifyRequest (A := Nat) none (fun _ => .ok ⟨201, "payload"⟩) none
        (fun _ => none) true (fun _ => some 42)).1 = .errStatusRaw 201 "payload" ∧
    (doDifyRequest (A := Nat) none (fun _ => .ok ⟨201, "payload"⟩) none
        (fun _ => none) true (fun _ => some 42)).1 ≠ .success (some 42) := by
  constructor
  · rfl
  · decide

/-- C2 (amended): for a call whose round trip completes and whose body is
read, a response with status exactly 200 and a supplied destination is
decoded into it (decode failure being a distinct terminal error), and any
status other than 200 fails terminally, first decoding a structured
`{code, message, status}` error body and otherwise surfacing the raw
status and body text. -/
theorem doDifyRequest_status_handling {A : Type}
    (attempt : Nat → Except GoErr HttpResponse)
    (decodeErr : String → Option DifyAPIErrorResponse)
    (withDest : Bool) (decodeA : String → Option A) (resp : HttpResponse)
    (hrt : (retryLoop attempt 0 maxRetries).result = .ok resp) :
    (resp.statusCode = 200 → withDest = true →
      (∀ a, decodeA resp.body = some a →
        (doDifyRequest none attempt none decodeErr withDest decodeA).1 =
          .success (some a)) ∧
      (decodeA resp.body = none →
        (doDifyRequest none attempt none decodeErr withDest decodeA).1 =
          .errDecodeSuccess)) ∧
    (resp.statusCode ≠ 200 →
      (∀ er, decodeErr resp.body = some er →
        (doDifyRequest none attempt none decodeErr withDest decodeA).1 =
          .errStatusStructured er.code er.message) ∧
      (decodeErr resp.body = none →
        (doDifyRequest none attempt none decodeErr withDest decodeA).1 =
          .errStatusRaw resp.statusCode resp.body)) := by
  constructor
  · intro hst hdest
    constructor
    · intro a hdec
      simp [doDifyRequest, hrt, hst, hdest, hdec]
    · intro hdec
      simp [doDifyRequest, hrt, hst, hdest, hdec]
  · intro hst
    constructor
    · intro er hdec
      simp [doDifyRequest, hrt, hst, hdec]
    · intro hdec
      simp [doDifyRequest, hrt, hst, hdec]

/-- Witness for C2 (amended): a 200 response whose body decodes to `7` is
decoded into the supplied destination. -/
theorem doDifyRequest_status_handling_witness :
    (retryLoop (fun _ => .ok ⟨200, "body"⟩) 0 maxRetries).result = .ok ⟨200, "body"⟩ ∧
    (doDifyRequest (A := Nat) none (fun _ => .ok ⟨200, "body"⟩) none
        (fun _ => none) true (fun _ => some 7)).1 = .success (some 7) := by
  refine ⟨rfl, ?_⟩
  exact ((doDifyRequest_status_handling (A := Nat) (fun _ => .ok ⟨200, "body"⟩)
      (fun _ => none) true (fun _ => some 7) ⟨200, "body"⟩ rfl).1 rfl rfl).1 7 rfl

/-- Helper: `utf8Len` on a literal character list. -/
theorem utf8Len_mk (l : List Char) :
    utf8Len (String.mk l) = (l.map Char.utf8Size).sum := rfl

/-- Helper: `utf8Len` of a repeated character. -/
theorem utf8Len_replicate (n : Nat) (c : Char) :
    utf8Len (String.mk (List.replicate n c)) = n * c.utf8Size := by
  simp [utf8Len_mk, List.map_replicate, List.sum_replicate, smul_eq_mul]

/-- Helper: `utf8Len` is additive over concatenation. -/
theorem utf8Len_append (s t : String) :
    utf8Len (s ++ t) = utf8Len s + utf8Len t := by
  cases s with
  | mk ls =>
    cases t with
    | mk lt =>
      show ((ls ++ lt).map Char.utf8Size).sum = _
      simp [utf8Len_mk]

/-- Helper: the plain-text tail sends the payload unmodified when it is
within the byte limit. -/
theorem ppPlain_short (sendResult : SendMsg → Option GoErr) (s : String)
    (h : ¬ utf8Len s > maxWeComMessageLength) :
    ppPlain sendResult s =
      (liftExcept (robotSend sendResult (.text s)).1,
        [(robotSend sendResult (.text s)).2]) := by
  simp only [ppPlain, if_neg h]

/-- Helper: the plain-text tail over the byte limit with at least 1998
runes truncates to 1998 runes and appends the note. -/
theorem ppPlain_long (sendResult : SendMsg → Option GoErr) (s : String)
    (h : utf8Len s > maxWeComMessageLength)
    (h2 : ¬ s.toList.length < maxWeComMessageLength - 50) :
    ppPlain sendResult s =
      (liftExcept (robotSend sendResult
          (.text (String.mk (s.toList.take (maxWeComMessageLength - 50)) ++
            truncNote))).1,
        [(robotSend sendResult
          (.text (String.mk (s.toList.take (maxWeComMessageLength - 50)) ++
            truncNote))).2]) := by
  simp only [ppPlain, if_pos h, if_neg h2]

/-- Helper: the plain-text tail over the byte limit with fewer than 1998
runes panics on the rune-slice expression. -/
theorem ppPlain_panics (sendResult : SendMsg → Option GoErr) (s : String)
    (h : utf8Len s > maxWeComMessageLength)
    (h2 : s.toList.length < maxWeComMessageLength - 50) :
    ppPlain sendResult s =
      (.panicked "runtime error: slice bounds out of range", []) := by
  simp only [ppPlain, if_pos h, if_pos h2]

/-- C1 (code-bug evidence): a plain-text payload of exactly 2048 bytes is
sent unmodified, but a payload of 2049 ASCII bytes is truncated to 1998
runes and the 64-byte suffix note appended, so the text actually sent is
2062 bytes — more than the 2048-byte limit the code itself documents.  A
2049-byte payload of 683 three-byte characters even panics, because the
rune slice `[]rune(difyResponse)[:1998]` is out of range. -/
theorem plainText_truncation_exceeds_limit :
    postprocessDifyResponse ⟨"key", "http://dify", "chat", "", ""⟩ (fun _ => none)
        ⟨fun _ => none, fun _ _ => none⟩ (fun _ => none)
        (String.mk (List.replicate 2048 'a')) =
      (.ok (), [.send (.text (String.mk (List.replicate 2048 'a'))) true]) ∧
    postprocessDifyResponse ⟨"key", "http://dify", "chat", "", ""⟩ (fun _ => none)
        ⟨fun _ => none, fun _ _ => none⟩ (fun _ => none)
        (String.mk (List.replicate 2049 'a')) =
      (.ok (), [.send (.text (String.mk (List.replicate 1998 'a') ++ truncNote)) true]) ∧
    utf8Len (String.mk (List.replicate 2049 'a')) = 2049 ∧
    utf8Len (String.mk (List.replicate 1998 'a') ++ truncNote) = 2062 ∧
    2048 < utf8Len (String.mk (List.replicate 1998 'a') ++ truncNote) ∧
    utf8Len (String.mk (List.replicate 683 '消')) = 2049 ∧
    (postprocessDifyResponse ⟨"key", "http://dify", "chat", "", ""⟩ (fun _ => none)
        ⟨fun _ => none, fun _ _ => none⟩ (fun _ => none)
        (String.mk (List.replicate 683 '消'))).1 =
      .panicked "runtime error: slice bounds out of range" := by
  have h2048 : utf8Len (String.mk (List.replicate 2048 'a')) = 2048 := by
    rw [utf8Len_replicate]; decide
  have h2049 : utf8Len (String.mk (List.replicate 2049 'a')) = 2049 := by
    rw [utf8Len_replicate]; decide
  have hNote : utf8Len truncNote = 64 := by decide
  have hSent : utf8Len (String.mk (List.replicate 1998 'a') ++ truncNote) = 2062 := by
    rw [utf8Len_append, utf8Len_replicate, hNote]; decide
  have h683 : utf8Len (String.mk (List.replicate 683 '消')) = 2049 := by
    rw [utf8Len_replicate]; decide
  have hmin : min 1998 2049 = 1998 := by decide
  have hTake : (String.mk (List.replicate 2049 'a')).toList.take 1998 =
      List.replicate 1998 'a' := by
    show (List.replicate 2049 'a').take 1998 = _
    rw [List.take_replicate, hmin]
  have hLen2049 : (String.mk (List.replicate 2049 'a')).toList.length = 2049 := by
    show (List.replicate 2049 'a').length = 2049
    rw [List.length_replicate]
  have hLen683 : (String.mk (List.replicate 683 '消')).toList.length = 683 := by
    show (List.replicate 683 '消').length = 683
    rw [List.length_replicate]
  refine ⟨?_, ?_, h2049, hSent, by rw [hSent]; decide, h683, ?_⟩
  · have e1 : postprocessDifyResponse ⟨"key", "http://dify", "chat", "", ""⟩
        (fun _ => none) ⟨fun _ => none, fun _ _ => none⟩ (fun _ => none)
        (String.mk (List.replicate 2048 'a')) =
        ppPlain (fun _ => none) (String.mk (List.replicate 2048 'a')) := rfl
    rw [e1, ppPlain_short _ _ (by rw [h2048]; decide)]
    exact rfl
  · have e1 : postprocessDifyResponse ⟨"key", "http://dify", "chat", "", ""⟩
        (fun _ => none) ⟨fun _ => none, fun _ _ => none⟩ (fun _ => none)
        (String.mk (List.replicate 2049 'a')) =
        ppPlain (fun _ => none) (String.mk (List.replicate 2049 'a')) := rfl
    rw [e1, ppPlain_long _ _ (by rw [h2049]; decide) (by rw [hLen2049]; decide),
      show maxWeComMessageLength - 50 = 1998 from rfl, hTake]
    exact rfl
  · have e1 : postprocessDifyResponse ⟨"key", "http://dify", "chat", "", ""⟩
        (fun _ => none) ⟨fun _ => none, fun _ _ => none⟩ (fun _ => none)
        (String.mk (List.replicate 683 '消')) =
        ppPlain (fun _ => none) (String.mk (List.replicate 683 '消')) := rfl
    rw [e1, ppPlain_panics _ _ (by rw [h683]; decide) (by rw [hLen683]; decide)]

/-- C3: the outbound shape is chosen first-match-wins over the payload
parsed as a JSON object — non-empty `image_url` → Image; else non-empty
`file_url` → File; else non-empty `markdown` → Markdown; else a `data`
field with configured bot type "workflow" → the raw payload as Text;
otherwise (including a parse failure) plain-text handling — and once a
typed send succeeds, that send is the only outbound send of the
invocation. -/
theorem postprocess_classification_order
    (cfg : DifyConfig) (parseJson : String → Option JObjF) (fs : FsOracles)
    (sendResult : SendMsg → Option GoErr) (resp : String) :
    (∀ j u p, parseJson resp = some j → nonEmptyStrField j "image_url" = some u →
      fs.createTemp (imageTempPattern u) = some p → fs.download u p = none →
      sendResult (.image p) = none →
      postprocessDifyResponse cfg parseJson fs sendResult resp =
        (.ok (), [.createTemp (imageTempPattern u) true, .download u p true,
          .send (.image p) true, .removeFile p])) ∧
    (∀ j u p, parseJson resp = some j → nonEmptyStrField j "image_url" = none →
      nonEmptyStrField j "file_url" = some u →
      fs.createTemp (fileTempPattern u) = some p → fs.download u p = none →
      sendResult (.file p) = none →
      postprocessDifyResponse cfg parseJson fs sendResult resp =
        (.ok (), [.createTemp (fileTempPattern u) true, .download u p true,
          .send (.file p) true, .removeFile p])) ∧
    (∀ j m, parseJson resp = some j → nonEmptyStrField j "image_url" = none →
      nonEmptyStrField j "file_url" = none → nonEmptyStrField j "markdown" = some m →
      sendResult (.markdown m) = none →
      postprocessDifyResponse cfg parseJson fs sendResult resp =
        (.ok (), [.send (.markdown m) true])) ∧
    (∀ j, parseJson resp = some j → nonEmptyStrField j "image_url" = none →
      nonEmptyStrField j "file_url" = none → nonEmptyStrField j "markdown" = none →
      (j "data").isSome = true → cfg.botType = "workflow" →
      sendResult (.text resp) = none →
      postprocessDifyResponse cfg parseJson fs sendResult resp =
        (.ok (), [.send (.text resp) true])) ∧
    (parseJson resp = none →
      postprocessDifyResponse cfg parseJson fs sendResult resp =
        ppPlain sendResult resp) ∧
    (∀ j, parseJson resp = some j → nonEmptyStrField j "image_url" = none →
      nonEmptyStrField j "file_url" = none → nonEmptyStrField j "markdown" = none →
      ¬((j "data").isSome = true ∧ cfg.botType = "workflow") →
      postprocessDifyResponse cfg parseJson fs sendResult resp =
        ppPlain sendResult resp) := by
  refine ⟨?_, ?_, ?_, ?_, ?_, ?_⟩
  · intro j u p hp hu hc hd hs
    simp [postprocessDifyResponse, hp, hu, ppImageBranch, hc, hd, robotSend, hs,
      liftExcept]
  · intro j u p hp himg hu hc hd hs
    simp [postprocessDifyResponse, hp, himg, hu, ppFileBranch, hc, hd, robotSend, hs,
      liftExcept]
  · intro j m hp himg hfile hmd hs
    simp [postprocessDifyResponse, hp, himg, hfile, hmd, robotSend, hs, liftExcept]
  · intro j hp himg hfile hmd hdata hwf hs
    simp [postprocessDifyResponse, hp, himg, hfile, hmd, hdata, hwf, robotSend, hs,
      liftExcept]
  · intro hp
    simp [postprocessDifyResponse, hp]
  · intro j hp himg hfile hmd hguard
    simp [postprocessDifyResponse, hp, himg, hfile, hmd, hguard]

/-- Witness for C3 at the markdown case: a payload parsing to
`{"markdown": "# title"}` produces exactly one Markdown send. -/
theorem postprocess_classification_order_witness :
    nonEmptyStrField (singletonJObj "markdown" (.str "# title")) "image_url" = none ∧
    nonEmptyStrField (singletonJObj "markdown" (.str "# title")) "markdown" =
      some "# title" ∧
    postprocessDifyResponse ⟨"k", "http://dify", "chat", "", ""⟩
        (fun _ => some (singletonJObj "markdown" (.str "# title")))
        ⟨fun _ => none, fun _ _ => none⟩ (fun _ => none) "resp" =
      (.ok (), [.send (.markdown "# title") true]) := by
  refine ⟨rfl, rfl, ?_⟩
  exact (postprocess_classification_order ⟨"k", "http://dify", "chat", "", ""⟩
      (fun _ => some (singletonJObj "markdown" (.str "# title")))
      ⟨fun _ => none, fun _ _ => none⟩ (fun _ => none) "resp").2.2.1
      (singletonJObj "markdown" (.str "# title")) "# title" rfl rfl rfl rfl rfl

/-- C4: when the payload's JSON object carries a non-empty `image_url`, a
failure at any sub-step (scratch-file creation, download, or image
delivery) is not propagated as that sub-step's error: the result is
exactly the result of a fallback Text send naming the image URL and the
failure; on a download failure the scratch file is removed and no Image
message is ever sent. -/
theorem postprocess_imageFailure_degrades
    (cfg : DifyConfig) (parseJson : String → Option JObjF) (fs : FsOracles)
    (sendResult : SendMsg → Option GoErr) (resp : String) (j : JObjF) (u : String)
    (hp : parseJson resp = some j) (hu : nonEmptyStrField j "image_url" = some u) :
    (fs.createTemp (imageTempPattern u) = none →
      postprocessDifyResponse cfg parseJson fs sendResult resp =
        (liftExcept (robotSend sendResult (.text (imageFailDownloadMsg u))).1,
          [.createTemp (imageTempPattern u) false,
            (robotSend sendResult (.text (imageFailDownloadMsg u))).2])) ∧
    (∀ p e, fs.createTemp (imageTempPattern u) = some p →
      fs.download u p = some e →
      postprocessDifyResponse cfg parseJson fs sendResult resp =
        (liftExcept (robotSend sendResult (.text (imageFailDownloadMsg u))).1,
          [.createTemp (imageTempPattern u) true, .download u p false,
            .removeFile p,
            (robotSend sendResult (.text (imageFailDownloadMsg u))).2])) ∧
    (∀ p e, fs.createTemp (imageTempPattern u) = some p →
      fs.download u p = none → sendResult (.image p) = some e →
      postprocessDifyResponse cfg parseJson fs sendResult resp =
        (liftExcept (robotSend sendResult (.text (imageFailSendMsg u))).1,
          [.createTemp (imageTempPattern u) true, .download u p true,
            .send (.image p) false,
            (robotSend sendResult (.text (imageFailSendMsg u))).2,
            .removeFile p])) := by
  refine ⟨?_, ?_, ?_⟩
  · intro hc
    rcases hs : sendResult (.text (imageFailDownloadMsg u)) with _ | e <;>
      simp [postprocessDifyResponse, hp, hu, ppImageBranch, hc, robotSend, hs,
        liftExcept]
  · intro p e hc hd
    rcases hs : sendResult (.text (imageFailDownloadMsg u)) with _ | e2 <;>
      simp [postprocessDifyResponse, hp, hu, ppImageBranch, hc, hd, robotSend, hs,
        liftExcept]
  · intro p e hc hd hi
    rcases hs : sendResult (.text (imageFailSendMsg u)) with _ | e2 <;>
      simp [postprocessDifyResponse, hp, hu, ppImageBranch, hc, hd, hi, robotSend,
        hs, liftExcept]

/-- Witness for C4 at the download-failure case: the scratch file is
removed, no Image send occurs, and the fallback Text naming the URL is
sent. -/
theorem postprocess_imageFailure_degrades_witness :
    (⟨fun _ => some "/tmp/t.png", fun _ _ => some ⟨"dl fail"⟩⟩ :
        FsOracles).download "http://x/y.png" "/tmp/t.png" = some ⟨"dl fail"⟩ ∧
    postprocessDifyResponse ⟨"k", "http://dify", "chat", "", ""⟩
        (fun _ => some (singletonJObj "image_url" (.str "http://x/y.png")))
        ⟨fun _ => some "/tmp/t.png", fun _ _ => some ⟨"dl fail"⟩⟩ (fun _ => none)
        "resp" =
      (.ok (), [.createTemp "dify_image_*.png" true,
        .download "http://x/y.png" "/tmp/t.png" false, .removeFile "/tmp/t.png",
        .send (.text (imageFailDownloadMsg "http://x/y.png")) true]) := by
  refine ⟨rfl, ?_⟩
  exact (postprocess_imageFailure_degrades ⟨"k", "http://dify", "chat", "", ""⟩
      (fun _ => some (singletonJObj "image_url" (.str "http://x/y.png")))
      ⟨fun _ => some "/tmp/t.png", fun _ _ => some ⟨"dl fail"⟩⟩ (fun _ => none)
      "resp" (singletonJObj "image_url" (.str "http://x/y.png")) "http://x/y.png"
      rfl rfl).2.1 "/tmp/t.png" ⟨"dl fail"⟩ rfl rfl

/-- C7: a successful backend call never yields an empty payload —
`CallDifyChatAPI` errors whenever the decoded `answer` is empty,
`CallDifyCompletionAPI` errors whenever the decoded `text` is empty, and
`CallDifyWorkflowAPI` errors whenever the decoded `data` object is nil. -/
theorem backendCall_success_nonEmpty :
    (∀ (cfg : DifyConfig) doReq req resp,
      (CallDifyChatAPI cfg doReq req).1 = .ok resp → resp.answer ≠ "") ∧
    (∀ (cfg : DifyConfig) doReq req resp,
      (CallDifyCompletionAPI cfg doReq req).1 = .ok resp → resp.text ≠ "") ∧
    (∀ (cfg : DifyConfig) doReq req resp,
      (CallDifyWorkflowAPI cfg doReq req).1 = .ok resp → resp.data ≠ none) := by
  refine ⟨?_, ?_, ?_⟩
  · intro cfg doReq req resp h
    simp only [CallDifyChatAPI] at h
    split at h
    · simp at h
    · split at h
      · simp at h
      · split at h
        · simp at h
        · rename_i response hne
          simp at h
          rw [← h]
          simpa using hne
  · intro cfg doReq req resp h
    simp only [CallDifyCompletionAPI] at h
    split at h
    · simp at h
    · split at h
      · simp at h
      · split at h
        · simp at h
        · rename_i response hne
          simp at h
          rw [← h]
          simpa using hne
  · intro cfg doReq req resp h
    simp only [CallDifyWorkflowAPI] at h
    split at h
    · simp at h
    · split at h
      · simp at h
      · split at h
        · simp at h
        · rename_i response d hdata
          simp at h
          rw [← h, hdata]
          simp
  
/-- Witness for C7 at a concrete chat call returning answer `"hi"`. -/
theorem backendCall_success_nonEmpty_witness :
    (CallDifyChatAPI ⟨"key", "http://dify", "chat", "", ""⟩ (fun _ => .ok ⟨"hi"⟩)
        ⟨⟨none, "u1", "", []⟩, "hello", ""⟩).1 = .ok ⟨"hi"⟩ ∧
    (⟨"hi"⟩ : DifyChatResponse).answer ≠ "" := by
  refine ⟨rfl, ?_⟩
  exact backendCall_success_nonEmpty.1 ⟨"key", "http://dify", "chat", "", ""⟩
    (fun _ => .ok ⟨"hi"⟩) ⟨⟨none, "u1", "", []⟩, "hello", ""⟩ ⟨"hi"⟩ rfl

/-- Counterexample for C6 as stated: with the unsupported bot type
`"unknown"` but a message recognised by the pre-filter, `ConvertAndSend`
performs an outbound Text send and returns without error, so it is not
the case that every call with an invalid bot type returns an error with
no outbound send. -/
theorem convertAndSend_unknownBotType_counterexample :
    (⟨"key", "http://dify", "unknown", "", ""⟩ : DifyConfig).botType = "unknown" ∧
    ConvertAndSend ⟨"key", "http://dify", "unknown", "", ""⟩
        ⟨fun _ => none, ⟨fun _ => none, fun _ _ => none⟩, fun _ => none,
          .ok (), .ok emptyJObj, fun _ => .error ⟨"unused"⟩,
          fun _ => .error ⟨"unused"⟩, fun _ => .error ⟨"unused"⟩,
          fun _ => .ok "unused"⟩
        "/image cat" "u1" "" "" =
      (.ok (), [.send (.text "抱歉，图片生成功能暂未实现。") true]) := by
  constructor
  · rfl
  · rfl

/-- C6 (amended): every backend-client operation fails immediately, with
no HTTP round issued, when the configured base URL or API key is empty;
and — provided the pre-filter does not short-circuit — `ConvertAndSend`
with a bot type outside {chat, completion, workflow} returns an error
having invoked no backend operation and no outbound send. -/
theorem configErrors_before_network (cfg : DifyConfig) (o : ConvertOracles) :
    (∀ doReq req, cfg.baseURL = "" ∨ cfg.apiKey = "" →
      CallDifyChatAPI cfg doReq req =
        (.error ⟨"dify base url 或 api key 未配置"⟩, [])) ∧
    (∀ doReq req, cfg.baseURL = "" ∨ cfg.apiKey = "" →
      CallDifyCompletionAPI cfg doReq req =
        (.error ⟨"dify base url 或 api key 未配置"⟩, [])) ∧
    (∀ doReq req, cfg.baseURL = "" ∨ cfg.apiKey = "" →
      CallDifyWorkflowAPI cfg doReq req =
        (.error ⟨"dify base url 或 api key 未配置"⟩, [])) ∧
    (∀ openResult doReq filePath user, cfg.baseURL = "" ∨ cfg.apiKey = "" →
      UploadFile cfg openResult doReq filePath user =
        (.error ⟨"dify base url 或 api key 未配置"⟩, [])) ∧
    (∀ message user conversationID filePath,
      goHasPrefix message "/image " = false →
      cfg.botType ≠ "chat" → cfg.botType ≠ "completion" → cfg.botType ≠ "workflow" →
      (∃ e, (ConvertAndSend cfg o message user conversationID filePath).1 = .err e) ∧
      (ConvertAndSend cfg o message user conversationID filePath).2 = []) := by
  refine ⟨?_, ?_, ?_, ?_, ?_⟩
  · intro doReq req h; simp [CallDifyChatAPI, h]
  · intro doReq req h; simp [CallDifyCompletionAPI, h]
  · intro doReq req h; simp [CallDifyWorkflowAPI, h]
  · intro openResult doReq filePath user h; simp [UploadFile, h]
  · intro message user conversationID filePath hpre hchat hcompl hwf
    have hred : ConvertAndSend cfg o message user conversationID filePath =
        convertViaDify cfg o
          (if message = "" ∧ cfg.defaultPrompt ≠ "" then cfg.defaultPrompt
            else message) user conversationID filePath := by
      simp [ConvertAndSend, preprocessMessage, hpre]
    have hdisp : dispatchDify cfg o
        (if message = "" ∧ cfg.defaultPrompt ≠ "" then cfg.defaultPrompt else message)
        user conversationID filePath =
        (.error ⟨"unsupported dify bot type: " ++ cfg.botType⟩, []) := by
      simp [dispatchDify, hchat, hcompl, hwf]
    by_cases hempty :
        (if message = "" ∧ cfg.defaultPrompt ≠ "" then cfg.defaultPrompt else message)
          = "" ∧ filePath = ""
    · constructor
      · exact ⟨⟨"message content or file path cannot be empty"⟩,
          by rw [hred]; simp [convertViaDify, hempty]⟩
      · rw [hred]; simp [convertViaDify, hempty]
    · constructor
      · refine ⟨⟨"failed to call Dify API: " ++
          ("unsupported dify bot type: " ++ cfg.botType)⟩, ?_⟩
        rw [hred]
        simp [convertViaDify, hempty, hdisp]
      · rw [hred]
        simp [convertViaDify, hempty, hdisp]

/-- Witness for C6 (amended) at bot type `"unknown"` and message
`"hello"`: the call errors and the trace is empty. -/
theorem configErrors_before_network_witness :
    goHasPrefix "hello" "/image " = false ∧
    (∃ e, (ConvertAndSend ⟨"key", "http://dify", "unknown", "", ""⟩
        ⟨fun _ => none, ⟨fun _ => none, fun _ _ => none⟩, fun _ => none,
          .ok (), .ok emptyJObj, fun _ => .error ⟨"unused"⟩,
          fun _ => .error ⟨"unused"⟩, fun _ => .error ⟨"unused"⟩,
          fun _ => .ok "unused"⟩
        "hello" "u1" "" "").1 = .err e) ∧
    (ConvertAndSend ⟨"key", "http://dify", "unknown", "", ""⟩
        ⟨fun _ => none, ⟨fun _ => none, fun _ _ => none⟩, fun _ => none,
          .ok (), .ok emptyJObj, fun _ => .error ⟨"unused"⟩,
          fun _ => .error ⟨"unused"⟩, fun _ => .error ⟨"unused"⟩,
          fun _ => .ok "unused"⟩
        "hello" "u1" "" "").2 = [] := by
  have h := (configErrors_before_network ⟨"key", "http://dify", "unknown", "", ""⟩
      ⟨fun _ => none, ⟨fun _ => none, fun _ _ => none⟩, fun _ => none,
        .ok (), .ok emptyJObj, fun _ => .error ⟨"unused"⟩,
        fun _ => .error ⟨"unused"⟩, fun _ => .error ⟨"unused"⟩,
        fun _ => .ok "unused"⟩).2.2.2.2
      "hello" "u1" "" "" rfl (by decide) (by decide) (by decide)
  exact ⟨rfl, h.1, h.2⟩

/-- C8: after the pre-filter does not short-circuit, an empty message
with a configured default prompt behaves exactly as if the default prompt
had been the message (and the backend request carries the default prompt
as its query); an empty message with no default prompt and no attachment
path fails immediately with an error, with no backend call and no
outbound send. -/
theorem convertAndSend_emptyMessage
    (cfg : DifyConfig) (o : ConvertOracles) (user conversationID filePath : String) :
    (cfg.defaultPrompt ≠ "" → goHasPrefix cfg.defaultPrompt "/image " = false →
      ConvertAndSend cfg o "" user conversationID filePath =
        ConvertAndSend cfg o cfg.defaultPrompt user conversationID filePath) ∧
    (cfg.defaultPrompt ≠ "" → cfg.botType = "chat" → filePath = "" →
      ∃ rest, (ConvertAndSend cfg o "" user conversationID filePath).2 =
        .chatCall cfg.defaultPrompt conversationID user :: rest) ∧
    (cfg.defaultPrompt = "" → filePath = "" →
      ConvertAndSend cfg o "" user conversationID filePath =
        (.err ⟨"message content or file path cannot be empty"⟩, [])) := by
  have h0 : goHasPrefix "" "/image " = false := rfl
  have hsub : ∀ h : cfg.defaultPrompt ≠ "",
      ConvertAndSend cfg o "" user conversationID filePath =
        convertViaDify cfg o cfg.defaultPrompt user conversationID filePath := by
    intro h
    simp [ConvertAndSend, preprocessMessage, h0, h]
  refine ⟨?_, ?_, ?_⟩
  · intro hdp hpre
    rw [hsub hdp]
    simp [ConvertAndSend, preprocessMessage, hpre, hdp]
  · intro hdp hbt hfp
    subst hfp
    rw [hsub hdp]
    have hne : ¬(cfg.defaultPrompt = "" ∧ ("" : String) = "") := fun hc => hdp hc.1
    have hdisp : ∃ rest2,
        (dispatchDify cfg o cfg.defaultPrompt user conversationID "").2 =
          .chatCall cfg.defaultPrompt conversationID user :: rest2 := by
      simp only [dispatchDify, hbt, if_true, ne_eq, not_true_eq_false,
        reduceIte, ite_true]
      rcases hcr : (CallDifyChatAPI cfg o.chatDoReq
          { inputs := some emptyJObj, user := user,
            responseMode := responseModeBlocking, files := [],
            query := cfg.defaultPrompt, conversationID := conversationID }).1 with e | r
      · exact ⟨(CallDifyChatAPI cfg o.chatDoReq
          { inputs := some emptyJObj, user := user,
            responseMode := responseModeBlocking, files := [],
            query := cfg.defaultPrompt, conversationID := conversationID }).2,
          by simp [hcr]⟩
      · exact ⟨(CallDifyChatAPI cfg o.chatDoReq
          { inputs := some emptyJObj, user := user,
            responseMode := responseModeBlocking, files := [],
            query := cfg.defaultPrompt, conversationID := conversationID }).2,
          by simp [hcr]⟩
    rcases hdisp with ⟨rest2, hrest⟩
    simp only [convertViaDify, if_neg hne]
    rcases hd : (dispatchDify cfg o cfg.defaultPrompt user conversationID "").1
      with e | difyResponse
    · exact ⟨rest2, by simp [hd, hrest, hdp]⟩
    · rcases hpp : (postprocessDifyResponse cfg o.parseJson o.fs o.sendResult
          difyResponse).1 with _ | e | m
      · exact ⟨rest2 ++ (postprocessDifyResponse cfg o.parseJson o.fs o.sendResult
          difyResponse).2, by simp [hd, hpp, hrest, hdp]⟩
      · exact ⟨rest2 ++ (postprocessDifyResponse cfg o.parseJson o.fs o.sendResult
          difyResponse).2, by simp [hd, hpp, hrest, hdp]⟩
      · exact ⟨rest2 ++ (postprocessDifyResponse cfg o.parseJson o.fs o.sendResult
          difyResponse).2, by simp [hd, hpp, hrest, hdp]⟩
  · intro hdp hfp
    simp [ConvertAndSend, preprocessMessage, h0, convertViaDify, hdp, hfp]

/-- Witness for C8: with no default prompt, no attachment and an empty
message the call fails immediately with the empty-request error and an
empty trace. -/
theorem convertAndSend_emptyMessage_witness :
    (⟨"key", "http://dify", "chat", "", ""⟩ : DifyConfig).defaultPrompt = "" ∧
    ConvertAndSend ⟨"key", "http://dify", "chat", "", ""⟩
        ⟨fun _ => none, ⟨fun _ => none, fun _ _ => none⟩, fun _ => none,
          .ok (), .ok emptyJObj, fun _ => .error ⟨"unused"⟩,
          fun _ => .error ⟨"unused"⟩, fun _ => .error ⟨"unused"⟩,
          fun _ => .ok "unused"⟩
        "" "u1" "" "" =
      (.err ⟨"message content or file path cannot be empty"⟩, []) := by
  refine ⟨rfl, ?_⟩
  exact (convertAndSend_emptyMessage ⟨"key", "http://dify", "chat", "", ""⟩
      ⟨fun _ => none, ⟨fun _ => none, fun _ _ => none⟩, fun _ => none,
        .ok (), .ok emptyJObj, fun _ => .error ⟨"unused"⟩,
        fun _ => .error ⟨"unused"⟩, fun _ => .error ⟨"unused"⟩,
        fun _ => .ok "unused"⟩
      "u1" "" "").2.2 rfl rfl

end Dify2WxBot
